import Mathlib

/-!
Shallow embedding of the pycolmap two-view geometry bindings:
`src/estimators/essential_matrix.cc` and `src/estimators/fundamental_matrix.cc`.

The repository's own files are the pybind11 wrapper functions
`essential_matrix_estimation` and `fundamental_matrix_estimation` (two
overloads each).  The LO-RANSAC engine, the minimal solvers, the camera
models, the process-wide PRNG and `PoseFromEssentialMatrix` live in the
colmap library, outside `src/`; those parts are modelled from the spec
(sections 3, 4.3, 4.4, 4.5 and 9) as indicated in each doc comment.

Machine doubles are modelled as exact rationals; vectors and matrices are
tuples / records of rationals so that every definition is executable and
every predicate decidable.
-/

set_option autoImplicit false

namespace PyColmap

/-- A 2D point (Eigen::Vector2d) as a pair of rationals. -/
abbrev V2 : Type := ℚ × ℚ

/-- A 3D point (Eigen::Vector3d). -/
abbrev V3 : Type := ℚ × ℚ × ℚ

/-- A correspondence: one 2D point in each image, positionally matched. -/
abbrev Corr : Type := V2 × V2

/-- A 3x3 matrix (Eigen::Matrix3d) with explicit rational entries. -/
structure Mat3 where
  m00 : ℚ
  m01 : ℚ
  m02 : ℚ
  m10 : ℚ
  m11 : ℚ
  m12 : ℚ
  m20 : ℚ
  m21 : ℚ
  m22 : ℚ
  deriving DecidableEq

instance : Inhabited Mat3 := ⟨⟨0, 0, 0, 0, 0, 0, 0, 0, 0⟩⟩

/-- A quaternion (Eigen::Quaterniond), the rotation representation stored in
`Rigid3d`. -/
structure Quat where
  qw : ℚ
  qx : ℚ
  qy : ℚ
  qz : ℚ
  deriving DecidableEq

/-- The colmap `Rigid3d` transform: a rotation quaternion and a translation,
as stored into the output dictionary under `cam2_from_cam1`. -/
structure Rigid3d where
  rotation : Quat
  translation : V3
  deriving DecidableEq

/-- A value stored in the returned `py::dict`.  The wrappers only ever store
booleans, 3x3 matrices, rigid transforms, counts and boolean lists; a
constructor for 3D point lists is included so that the *absence* of a
triangulated-point entry in the returned dictionary is expressible. -/
inductive PyValue where
  | pyBool (b : Bool)
  | pyMat (m : Mat3)
  | pyPose (p : Rigid3d)
  | pyNat (n : ℕ)
  | pyBoolList (l : List Bool)
  | pyVec3List (l : List V3)
  deriving DecidableEq

/-- A `py::dict` as an ordered association list from string keys to values. -/
abbrev PyDict : Type := List (String × PyValue)

/-- Modelled from the spec: the `CameraModel` capability of section 3, which
is an external collaborator (colmap's `Camera`, outside `src/`): it maps
image-space pixels to normalized camera rays (`CamFromImg`) and exposes a
mean focal length.  Immutable for the duration of a call. -/
structure Camera where
  camFromImg : V2 → V2
  meanFocalLength : ℚ

/-- The RANSAC configuration record of spec section 3 (colmap's
`RANSACOptions` is declared outside `src/`; the spec gives exactly these
five fields). -/
structure RANSACOptions where
  max_error : ℚ
  min_inlier_ratio : ℚ
  min_num_trials : ℕ
  max_num_trials : ℕ
  confidence : ℚ
  deriving DecidableEq

/-- Default option values per spec section 6. -/
instance : Inhabited RANSACOptions :=
  ⟨⟨4, 1/4, 100, 10000, 9999/10000⟩⟩

/-- Modelled from the spec: the process-wide pseudorandom generator state
(colmap's `SetPRNGSeed` / PRNG live in `colmap/math/random.h`, outside
`src/`).  Section 9 directs modelling it as an explicit deterministic
random source; the state is a natural number advanced on each draw. -/
abbrev Prng : Type := ℕ

/-- Modelled from the spec: `SetPRNGSeed(seed)` overwrites the process-wide
generator state with a fixed seed (spec sections 4.3 step 1 and 9). -/
def setPRNGSeed (seed : ℕ) (_ : Prng) : Prng := seed

/-- Modelled from the spec: one draw from the deterministic generator:
returns the current state as the raw random value and advances the state. -/
def randNext (s : Prng) : ℕ × Prng := (s, s + 1)

/-- Modelled from the spec: the shared estimator interface of section 9 —
`estimate(samples) -> candidate models` and
`residual(model, sample) -> scalar` — plus the minimal sample size.
`residual` returns the squared residual; section 4.2: threshold comparison
uses squared residual against the squared threshold.  The concrete 5-point,
7-point and 8-point solvers are colmap code outside `src/` whose closed-form
algebra the spec gives only as a contract, so estimator values are
parameters of the wrappers. -/
structure Estimator where
  sampleSize : ℕ
  estimate : List Corr → List Mat3
  residual : Mat3 → Corr → ℚ

/-- Modelled from the spec: the report produced by the RANSAC engine
(`report.success`, `report.model`, `report.support.num_inliers`,
`report.inlier_mask`); on failure only `success` is meaningful and the
model is the default-constructed matrix. -/
structure RansacReport where
  success : Bool
  model : Mat3
  numInliers : ℕ
  inlierMask : List Bool
  deriving DecidableEq

/-- Number of `true` entries of a boolean mask. -/
def countTrue : List Bool → ℕ
  | [] => 0
  | b :: l => (if b then 1 else 0) + countTrue l

/-- Modelled from the spec (section 4.2): the inlier mask of a candidate
model over the full correspondence list — a correspondence is an inlier
iff its squared residual is at most the squared threshold `t^2`. -/
def inlierMaskOf (e : Estimator) (t : ℚ) (m : Mat3) (corrs : List Corr) : List Bool :=
  corrs.map (fun c => decide (e.residual m c ≤ t ^ 2))

/-- Sum of the squared residuals of the correspondences classified as
inliers, the tie-break quantity of spec section 4.3 step 3. -/
def residualSumOf (e : Estimator) (t : ℚ) (m : Mat3) (corrs : List Corr) : ℚ :=
  (corrs.filter (fun c => decide (e.residual m c ≤ t ^ 2))).foldl
    (fun acc c => acc + e.residual m c) 0

/-- Support of a candidate: inlier count together with the residual sum used
as tie-break (spec section 4.3 step 3). -/
structure Support where
  count : ℕ
  resSum : ℚ
  deriving DecidableEq

/-- Modelled from the spec (section 4.3 step 3): support comparison — more
inliers is better, ties broken by lower sum of residuals over inliers. -/
def betterSupport (s₁ s₂ : Support) : Bool :=
  decide (s₂.count < s₁.count) || (decide (s₁.count = s₂.count) && decide (s₁.resSum < s₂.resSum))

/-- Modelled from the spec (section 4.3 step 4): "not worse" acceptance test
for the locally optimized model. -/
def notWorseSupport (s₁ s₂ : Support) : Bool :=
  decide (s₂.count < s₁.count) || (decide (s₁.count = s₂.count) && decide (s₁.resSum ≤ s₂.resSum))

/-- Support of a model over the full correspondence list. -/
def supportOf (e : Estimator) (t : ℚ) (m : Mat3) (corrs : List Corr) : Support :=
  ⟨countTrue (inlierMaskOf e t m corrs), residualSumOf e t m corrs⟩

/-- The best candidate tracked by the engine: model plus its support. -/
structure BestModel where
  model : Mat3
  supp : Support
  deriving DecidableEq

/-- Keep the correspondences at the `true` positions of a mask, mirroring the
index loop `if (inlier_mask[idx]) push_back(...)` of the wrapper. -/
def maskFilter {α : Type} : List Bool → List α → List α
  | b :: bs, x :: xs => if b then x :: maskFilter bs xs else maskFilter bs xs
  | _, _ => []

/-- Modelled from the spec (section 4.3 step 2): draw `k` distinct
correspondences without replacement using the process-wide generator. -/
def drawDistinct : ℕ → List Corr → Prng → List Corr × Prng
  | 0, _, s => ([], s)
  | k + 1, rem, s =>
    let rs := randNext s
    let i := rs.1 % rem.length
    let c := rem.getD i default
    let rest := drawDistinct k (rem.eraseIdx i) rs.2
    (c :: rest.1, rest.2)

/-- Modelled from the spec (section 4.3 step 2): a minimal sample, or `none`
when fewer correspondences than the minimal sample size exist (in which case
the generator is not advanced and the trial is uninformative). -/
def drawSample (k : ℕ) (corrs : List Corr) (s : Prng) : Option (List Corr) × Prng :=
  if corrs.length < k then (none, s)
  else
    let d := drawDistinct k corrs s
    (some d.1, d.2)

/-- Modelled from the spec (section 4.3 step 5): the number of trials
required to reach `confidence` probability of having sampled at least one
all-inlier minimal sample of size `k`, given the current inlier `ratio`:
the least `t` with `(1 - ratio^k)^t ≤ 1 - confidence`, capped at `maxT`. -/
def adaptiveNumTrials (k maxT : ℕ) (ratio conf : ℚ) : ℕ :=
  ((List.range (maxT + 1)).find? (fun t => decide ((1 - ratio ^ k) ^ t ≤ 1 - conf))).getD maxT

/-- Modelled from the spec (section 4.3 step 4): local optimization — when a
new best is found, re-estimate with the non-minimal estimator on the best
inlier set, re-score over the full list, and accept a refined model whose
support is not worse. -/
def localOptimize (minE nonminE : Estimator) (t : ℚ) (corrs : List Corr)
    (best : BestModel) : BestModel :=
  let inliers := maskFilter (inlierMaskOf minE t best.model corrs) corrs
  (nonminE.estimate inliers).foldl
    (fun b m =>
      let s := supportOf minE t m corrs
      if notWorseSupport s b.supp then ⟨m, s⟩ else b)
    best

/-- Modelled from the spec (section 4.3 steps 3 and 4): fold one trial's
candidate models into the tracked best, running local optimization whenever
a new best support is found. -/
def processCandidate (minE nonminE : Estimator) (t : ℚ) (corrs : List Corr)
    (best : Option BestModel) (m : Mat3) : Option BestModel :=
  let s := supportOf minE t m corrs
  match best with
  | none => some (localOptimize minE nonminE t corrs ⟨m, s⟩)
  | some b =>
    if betterSupport s b.supp then some (localOptimize minE nonminE t corrs ⟨m, s⟩)
    else some b

/-- Modelled from the spec (section 4.3 step 5): the effective trial budget
after a best update — `max(minNumTrials, adaptiveEstimate)`, never exceeding
`maxNumTrials`; the full budget while no model has been found. -/
def trialBudget (opts : RANSACOptions) (k n : ℕ) (best : Option BestModel) : ℕ :=
  match best with
  | none => opts.max_num_trials
  | some b =>
    min opts.max_num_trials
      (max opts.min_num_trials
        (adaptiveNumTrials k opts.max_num_trials ((b.supp.count : ℚ) / (n : ℚ)) opts.confidence))

/-- Modelled from the spec (section 4.3 step 2): the trial loop.  `fuel`
bounds recursion by `maxNumTrials`; `idx` is the current trial index; the
loop stops once `idx` reaches the current effective budget. -/
def ransacLoop (minE nonminE : Estimator) (opts : RANSACOptions) (corrs : List Corr) :
    ℕ → ℕ → Option BestModel → Prng → Option BestModel × Prng
  | 0, _, best, s => (best, s)
  | fuel + 1, idx, best, s =>
    if trialBudget opts minE.sampleSize corrs.length best ≤ idx then (best, s)
    else
      let drawn := drawSample minE.sampleSize corrs s
      let cands := match drawn.1 with
        | none => []
        | some sample => minE.estimate sample
      let best₁ := cands.foldl (processCandidate minE nonminE opts.max_error corrs) best
      ransacLoop minE nonminE opts corrs fuel (idx + 1) best₁ drawn.2

/-- Modelled from the spec (section 4.3 step 6): the final report — success
iff at least one valid model was found and its inlier ratio is at least
`minInlierRatio`; the report then carries the best model, its inlier mask
over the full correspondence list and the inlier count.  On failure the
model is the default-constructed matrix and the other fields are not read
by the callers. -/
def finalizeReport (minE : Estimator) (opts : RANSACOptions) (corrs : List Corr) :
    Option BestModel → RansacReport
  | none => ⟨false, default, 0, []⟩
  | some b =>
    let mask := inlierMaskOf minE opts.max_error b.model corrs
    let cnt := countTrue mask
    if opts.min_inlier_ratio ≤ (cnt : ℚ) / (corrs.length : ℚ) then
      ⟨true, b.model, cnt, mask⟩
    else
      ⟨false, default, 0, []⟩

/-- Modelled from the spec (section 4.3): the LO-RANSAC engine,
`LORANSAC<MinEstimator, NonMinEstimator>::Estimate(points1, points2)`
(colmap's `optim/loransac.h`, outside `src/`). -/
def loransacEstimate (minE nonminE : Estimator) (opts : RANSACOptions)
    (points1 points2 : List V2) (s : Prng) : RansacReport × Prng :=
  let corrs := points1.zip points2
  let r := ransacLoop minE nonminE opts corrs opts.max_num_trials 0 none s
  (finalizeReport minE opts corrs r.1, r.2)

/-- Negation of a 3-vector, for the sign-ambiguous translation direction. -/
def negV3 (v : V3) : V3 := (-v.1, -v.2.1, -v.2.2)

/-- Modelled from the spec (section 4.4): the numeric kernels of pose
recovery (`PoseFromEssentialMatrix` in colmap's `geometry/pose`, outside
`src/`): the SVD-based decomposition of an essential matrix into its two
candidate rotations and translation direction, the triangulation method,
the positive-depth (cheirality) test, and the rotation-matrix-to-quaternion
conversion applied by the wrapper.  These closed-form numeric routines are
taken as parameters; the selection logic over them follows the spec. -/
structure PoseEngine where
  decompose : Mat3 → Mat3 × Mat3 × V3
  triangulate : Mat3 → V3 → Corr → V3
  depthPositive : Mat3 → V3 → V3 → Bool
  quatOfRot : Mat3 → Quat

/-- One of the four algebraic pose candidates together with its triangulated
points and the number of points with positive depth in both frames. -/
structure PoseCandidate where
  rot : Mat3
  tr : V3
  pts : List V3
  good : ℕ

/-- Modelled from the spec (section 4.4): score one rotation/translation
candidate by triangulating every inlier correspondence and counting points
with positive depth in both camera frames. -/
def scorePoseCandidate (pe : PoseEngine) (corrs : List Corr) (rt : Mat3 × V3) :
    PoseCandidate :=
  let pts := corrs.map (pe.triangulate rt.1 rt.2)
  ⟨rt.1, rt.2, pts, (pts.filter (pe.depthPositive rt.1 rt.2)).length⟩

/-- Modelled from the spec (section 4.4): `PoseFromEssentialMatrix` —
decompose the essential matrix into the 4 rotation/translation candidates,
triangulate every inlier correspondence under each, and select the
candidate maximizing the positive-depth count (first found on ties; the
best available candidate is kept even when no candidate yields a majority).
Returns the selected rotation, translation and triangulated 3D points. -/
def poseFromEssentialMatrix (pe : PoseEngine) (e : Mat3)
    (points1 points2 : List V2) : Mat3 × V3 × List V3 :=
  let corrs := points1.zip points2
  let d := pe.decompose e
  let cands := [(d.1, d.2.2), (d.1, negV3 d.2.2), (d.2.1, d.2.2), (d.2.1, negV3 d.2.2)]
  let scored := cands.map (scorePoseCandidate pe corrs)
  match scored with
  | [] => (default, default, [])
  | c :: cs =>
    let best := cs.foldl (fun b x => if b.good < x.good then x else b) c
    (best.rot, best.tr, best.pts)

/-- The image-to-world loop of the essential wrapper: push back
`camera.CamFromImg(points2D[idx])` for each index in order. -/
def imageToWorld (cam : Camera) (pts : List V2) : List V2 :=
  pts.foldl (fun acc p => acc ++ [cam.camFromImg p]) []

/-- The pixel-to-normalized threshold conversion of the essential wrapper:
`0.5 * (max_error_px / f1 + max_error_px / f2)`. -/
def worldError (maxErrorPx f1 f2 : ℚ) : ℚ :=
  1 / 2 * (maxErrorPx / f1 + maxErrorPx / f2)

/-- The `vector<char>` to `vector<bool>` conversion loop of both wrappers:
push back `true` when the mask entry is set, `false` otherwise. -/
def boolConv (mask : List Bool) : List Bool :=
  mask.foldl (fun acc it => acc ++ [if it then true else false]) []

/-- The failure output dictionary: only the key `success`, set to false. -/
def failureDict : PyDict := [("success", PyValue.pyBool false)]

/-- The message of the THROW_CHECK_EQ precondition violation on mismatched
correspondence list lengths. -/
def checkSizeMsg : String := "CHECK_EQ points2D1.size points2D2.size failed"

/-- Lines 40-62 of `src/estimators/essential_matrix.cc`: map both pixel
lists through their cameras to normalized points, convert the pixel
threshold to normalized space, copy the options with the converted
threshold, and run `LORANSAC` with the 5-point estimator in both roles. -/
def essentialRansacReport (five : Estimator) (opts : RANSACOptions)
    (points2D1 points2D2 : List V2) (camera1 camera2 : Camera) (s : Prng) :
    RansacReport × Prng :=
  let world1 := imageToWorld camera1 points2D1
  let world2 := imageToWorld camera2 points2D2
  let ransacOptions : RANSACOptions :=
    { opts with
        max_error := worldError opts.max_error camera1.meanFocalLength camera2.meanFocalLength }
  loransacEstimate five five ransacOptions world1 world2 s

/-- `essential_matrix_estimation` (options-struct overload),
`src/estimators/essential_matrix.cc` lines 25-113: seed the process-wide
generator with 0, check the length precondition, normalize, run LO-RANSAC,
and on success run pose recovery over the inlier correspondences, returning
the success dictionary; on engine failure return the failure dictionary.
The 5-point estimator and the numeric pose kernels are colmap code outside
`src/` and are passed as parameters.  The success branch recomputes the
normalized point lists with the same pure `imageToWorld` the report uses. -/
def essential_matrix_estimation (five : Estimator) (pe : PoseEngine)
    (points2D1 points2D2 : List V2) (camera1 camera2 : Camera)
    (options : RANSACOptions) (w : Prng) : Except String PyDict × Prng :=
  let w₀ := setPRNGSeed 0 w
  if points2D1.length = points2D2.length then
    let r := essentialRansacReport five options points2D1 points2D2 camera1 camera2 w₀
    if r.1.success then
      let world1 := imageToWorld camera1 points2D1
      let world2 := imageToWorld camera2 points2D2
      let inlier_world1 := maskFilter r.1.inlierMask world1
      let inlier_world2 := maskFilter r.1.inlierMask world2
      let pose := poseFromEssentialMatrix pe r.1.model inlier_world1 inlier_world2
      (Except.ok [("success", PyValue.pyBool true),
                  ("E", PyValue.pyMat r.1.model),
                  ("cam2_from_cam1", PyValue.pyPose ⟨pe.quatOfRot pose.1, pose.2.1⟩),
                  ("num_inliers", PyValue.pyNat r.1.numInliers),
                  ("inliers", PyValue.pyBoolList (boolConv r.1.inlierMask))], r.2)
    else
      (Except.ok failureDict, r.2)
  else
    (Except.error checkSizeMsg, w₀)

/-- `essential_matrix_estimation` (scalar-parameter overload), lines
115-133: assemble a `RANSACOptions` from the five scalars and delegate to
the options-struct overload. -/
def essential_matrix_estimation_scalars (five : Estimator) (pe : PoseEngine)
    (points2D1 points2D2 : List V2) (camera1 camera2 : Camera)
    (max_error_px mir : ℚ) (mint maxt : ℕ) (conf : ℚ) (w : Prng) :
    Except String PyDict × Prng :=
  let ransac_options : RANSACOptions :=
    { (default : RANSACOptions) with
        max_error := max_error_px,
        min_inlier_ratio := mir,
        min_num_trials := mint,
        max_num_trials := maxt,
        confidence := conf }
  essential_matrix_estimation five pe points2D1 points2D2 camera1 camera2 ransac_options w

/-- `fundamental_matrix_estimation` (options-struct overload),
`src/estimators/fundamental_matrix.cc` lines 23-72: seed the process-wide
generator with 0, check the length precondition, run LO-RANSAC with the
7-point minimal / 8-point non-minimal estimator pair directly in pixel
space, and return the success or failure dictionary. -/
def fundamental_matrix_estimation (seven eight : Estimator)
    (points2D1 points2D2 : List V2) (options : RANSACOptions) (w : Prng) :
    Except String PyDict × Prng :=
  let w₀ := setPRNGSeed 0 w
  if points2D1.length = points2D2.length then
    let r := loransacEstimate seven eight options points2D1 points2D2 w₀
    if r.1.success then
      (Except.ok [("success", PyValue.pyBool true),
                  ("F", PyValue.pyMat r.1.model),
                  ("num_inliers", PyValue.pyNat r.1.numInliers),
                  ("inliers", PyValue.pyBoolList (boolConv r.1.inlierMask))], r.2)
    else
      (Except.ok failureDict, r.2)
  else
    (Except.error checkSizeMsg, w₀)

/-- `fundamental_matrix_estimation` (scalar-parameter overload), lines
74-89: assemble a `RANSACOptions` from the five scalars and delegate to the
options-struct overload. -/
def fundamental_matrix_estimation_scalars (seven eight : Estimator)
    (points2D1 points2D2 : List V2)
    (max_error_px mir : ℚ) (mint maxt : ℕ) (conf : ℚ) (w : Prng) :
    Except String PyDict × Prng :=
  let ransac_options : RANSACOptions :=
    { (default : RANSACOptions) with
        max_error := max_error_px,
        min_inlier_ratio := mir,
        min_num_trials := mint,
        max_num_trials := maxt,
        confidence := conf }
  fundamental_matrix_estimation seven eight points2D1 points2D2 ransac_options w

/-! ### Concrete instances used to exercise the wrappers

Estimator and pose-kernel values are inputs of the wrappers (the colmap
solvers they stand for live outside `src/`); the following small instances
are used to evaluate the wrappers on concrete calls. -/

/-- A concrete 3x3 model matrix. -/
def cexMatA : Mat3 := ⟨1, 0, 0, 0, 0, 0, 0, 0, 0⟩

/-- A second concrete 3x3 model matrix. -/
def cexMatB : Mat3 := ⟨2, 0, 0, 0, 0, 0, 0, 0, 0⟩

/-- A minimal estimator with sample size 1: the sample containing the first
correspondence yields model `cexMatA`, any other sample yields `cexMatB`;
`cexMatB` fits every correspondence exactly while the squared residual of
`cexMatA` on a correspondence is the first coordinate of its first point. -/
def cexMinimal : Estimator :=
  ⟨1, fun s => if s = [((0, 0), (0, 0))] then [cexMatA] else [cexMatB],
   fun m c => if m = cexMatB then 0 else c.1.1⟩

/-- A non-minimal estimator that always returns zero candidates — the
degenerate-configuration outcome the spec allows for any estimator. -/
def cexNonminimal : Estimator := ⟨8, fun _ => [], fun _ _ => 0⟩

/-- Three correspondences (first image side). -/
def cexPoints1 : List V2 := [(0, 0), (1, 0), (2, 0)]

/-- Three correspondences (second image side). -/
def cexPoints2 : List V2 := [(0, 0), (0, 0), (0, 0)]

/-- Options with the smaller `max_error` threshold of 1/2. -/
def cexOptsLow : RANSACOptions := ⟨1/2, 0, 1, 2, 3/5⟩

/-- The same options with `max_error` raised to 5/4. -/
def cexOptsHigh : RANSACOptions := ⟨5/4, 0, 1, 2, 3/5⟩

/-- A minimal estimator with sample size 7 (the fundamental minimal sample
size); on fewer than 7 correspondences every trial is uninformative. -/
def failSeven : Estimator := ⟨7, fun _ => [], fun _ _ => 0⟩

/-- A single correspondence list, below the minimal sample size 7. -/
def failPoints : List V2 := [(0, 0)]

/-- Options for the bound-to-fail call. -/
def failOpts : RANSACOptions := ⟨1, 0, 1, 2, 1/2⟩

/-- A sample-size-1 estimator that always proposes `cexMatA` with zero
residual everywhere, so any call with at least one correspondence
succeeds. -/
def okFive : Estimator := ⟨1, fun _ => [cexMatA], fun _ _ => 0⟩

/-- Concrete pose kernels: a fixed decomposition, midpoint-style
triangulation to a fixed depth, an always-positive depth test, and a fixed
quaternion conversion. -/
def okPose : PoseEngine :=
  ⟨fun _ => (cexMatA, cexMatB, (1, 0, 0)),
   fun _ _ c => (c.1.1, c.1.2, 1),
   fun _ _ _ => true,
   fun _ => ⟨1, 0, 0, 0⟩⟩

/-- A camera whose image-to-ray map is the identity with focal length 1. -/
def okCam : Camera := ⟨id, 1⟩

/-- Options under which `okFive` succeeds in a single trial. -/
def okOpts : RANSACOptions := ⟨1, 1/2, 1, 1, 1/2⟩

/-- A single correspondence. -/
def okPoints : List V2 := [(0, 0)]

/-! ### Helper lemmas -/

theorem foldl_snoc_eq_map {α β : Type} (f : α → β) :
    ∀ (l : List α) (acc : List β),
      l.foldl (fun a x => a ++ [f x]) acc = acc ++ l.map f := by
  intro l
  induction l with
  | nil => intro acc; simp
  | cons x xs ih => intro acc; simp [ih]

/-- The image-to-world loop equals mapping the camera model over the list. -/
theorem imageToWorld_eq_map (cam : Camera) (pts : List V2) :
    imageToWorld cam pts = pts.map cam.camFromImg := by
  simpa using foldl_snoc_eq_map cam.camFromImg pts []

/-- The `vector<char>` to `vector<bool>` conversion loop is the identity on
boolean masks. -/
theorem boolConv_eq (mask : List Bool) : boolConv mask = mask := by
  have h : boolConv mask = [] ++ mask.map (fun it => if it then true else false) :=
    foldl_snoc_eq_map (fun it : Bool => if it then true else false) mask []
  have h₂ : mask.map (fun it => if it then true else false) = mask := by
    induction mask with
    | nil => rfl
    | cons b l ih => cases b <;> simp [ih]
  simpa [h₂] using h

/-- The inlier mask of a model is as long as the correspondence list. -/
theorem inlierMaskOf_length (e : Estimator) (t : ℚ) (m : Mat3) (corrs : List Corr) :
    (inlierMaskOf e t m corrs).length = corrs.length := by
  simp [inlierMaskOf]

/-- Filtering a list by an equally long mask keeps `countTrue` elements. -/
theorem maskFilter_length {α : Type} :
    ∀ (mask : List Bool) (xs : List α), mask.length = xs.length →
      (maskFilter mask xs).length = countTrue mask := by
  intro mask
  induction mask with
  | nil => intro xs h; cases xs <;> simp_all [maskFilter, countTrue]
  | cons b bs ih =>
    intro xs h
    cases xs with
    | nil => simp at h
    | cons x rest =>
      simp only [List.length_cons, Nat.add_right_cancel_iff] at h
      cases b <;> simp [maskFilter, countTrue, ih rest h]
      omega

/-- For a fixed model, a larger threshold classifies at least as many
correspondences as inliers. -/
theorem inlierCount_mono (e : Estimator) (m : Mat3) (corrs : List Corr)
    {t t' : ℚ} (h0 : 0 ≤ t) (h : t ≤ t') :
    countTrue (inlierMaskOf e t m corrs) ≤ countTrue (inlierMaskOf e t' m corrs) := by
  have ht2 : t ^ 2 ≤ t' ^ 2 := pow_le_pow_left₀ h0 h 2
  induction corrs with
  | nil => simp [inlierMaskOf, countTrue]
  | cons c cs ih =>
    simp only [inlierMaskOf, List.map_cons, countTrue] at ih ⊢
    by_cases hc : e.residual m c ≤ t ^ 2
    · have hc2 : e.residual m c ≤ t' ^ 2 := le_trans hc ht2
      simp [hc, hc2]
      omega
    · by_cases hc2 : e.residual m c ≤ t' ^ 2
      · simp [hc, hc2]
        omega
      · simp [hc, hc2]
        omega

/-- On success, the final report's inlier mask spans the full correspondence
list and its inlier count is the number of `true` entries of the mask. -/
theorem finalizeReport_success (minE : Estimator) (opts : RANSACOptions)
    (corrs : List Corr) (ob : Option BestModel)
    (h : (finalizeReport minE opts corrs ob).success = true) :
    (finalizeReport minE opts corrs ob).inlierMask.length = corrs.length ∧
    (finalizeReport minE opts corrs ob).numInliers =
      countTrue (finalizeReport minE opts corrs ob).inlierMask := by
  cases ob with
  | none => simp [finalizeReport] at h
  | some b =>
    simp only [finalizeReport] at h ⊢
    split_ifs at h ⊢ with hr
    exact ⟨inlierMaskOf_length minE opts.max_error b.model corrs, rfl⟩

/-- The engine's report is the finalization of the trial loop's best model
over the zipped correspondence list. -/
theorem loransacEstimate_report (minE nonminE : Estimator) (opts : RANSACOptions)
    (points1 points2 : List V2) (s : Prng) :
    (loransacEstimate minE nonminE opts points1 points2 s).1 =
      finalizeReport minE opts (points1.zip points2)
        (ransacLoop minE nonminE opts (points1.zip points2) opts.max_num_trials 0 none s).1 :=
  rfl

/-- The image-to-world loop preserves the list length. -/
theorem imageToWorld_length (cam : Camera) (pts : List V2) :
    (imageToWorld cam pts).length = pts.length := by
  simp [imageToWorld_eq_map]

/-- On success, the engine's inlier mask spans the zipped correspondence
list and the reported inlier count is the number of set mask entries. -/
theorem loransacEstimate_success_inv (minE nonminE : Estimator) (opts : RANSACOptions)
    (p1 p2 : List V2) (s : Prng)
    (h : (loransacEstimate minE nonminE opts p1 p2 s).1.success = true) :
    (loransacEstimate minE nonminE opts p1 p2 s).1.inlierMask.length = (p1.zip p2).length ∧
    (loransacEstimate minE nonminE opts p1 p2 s).1.numInliers =
      countTrue (loransacEstimate minE nonminE opts p1 p2 s).1.inlierMask :=
  finalizeReport_success _ _ _ _ h

/-- The same success invariant phrased for the essential path's report. -/
theorem essentialRansacReport_success_inv (five : Estimator) (opts : RANSACOptions)
    (p1 p2 : List V2) (c1 c2 : Camera) (s : Prng)
    (h : (essentialRansacReport five opts p1 p2 c1 c2 s).1.success = true) :
    (essentialRansacReport five opts p1 p2 c1 c2 s).1.inlierMask.length =
      ((imageToWorld c1 p1).zip (imageToWorld c2 p2)).length ∧
    (essentialRansacReport five opts p1 p2 c1 c2 s).1.numInliers =
      countTrue (essentialRansacReport five opts p1 p2 c1 c2 s).1.inlierMask :=
  finalizeReport_success _ _ _ _ h

/-- Selecting the best-scored pose candidate preserves any property shared
by the initial candidate and every listed candidate. -/
theorem foldl_selectBest_preserve (P : PoseCandidate → Prop) :
    ∀ (cs : List PoseCandidate) (c : PoseCandidate), P c → (∀ x ∈ cs, P x) →
      P (cs.foldl (fun b x => if b.good < x.good then x else b) c) := by
  intro cs
  induction cs with
  | nil => intro c hc _; exact hc
  | cons y ys ih =>
    intro c hc hall
    simp only [List.foldl]
    by_cases hy : c.good < y.good
    · simp only [hy, if_true]
      exact ih y (hall y (by simp)) (fun x hx => hall x (by simp [hx]))
    · simp only [hy, if_false]
      exact ih c hc (fun x hx => hall x (by simp [hx]))

/-- Pose recovery triangulates one 3D point per input correspondence. -/
theorem poseFromEssentialMatrix_pts_length (pe : PoseEngine) (e : Mat3)
    (points1 points2 : List V2) :
    (poseFromEssentialMatrix pe e points1 points2).2.2.length =
      (points1.zip points2).length := by
  simp only [poseFromEssentialMatrix, List.map_cons, List.map_nil]
  exact foldl_selectBest_preserve
    (fun x => x.pts.length = (points1.zip points2).length) _ _
    (by simp [scorePoseCandidate])
    (by intro x hx; simp at hx; rcases hx with h | h | h <;> subst h <;>
          simp [scorePoseCandidate])

/-! ### Claim theorems -/

/-- C1: for both `estimateEssentialMatrix` and `estimateFundamentalMatrix`,
in both overload shapes, a call with `points2D_1.length != points2D_2.length`
signals the precondition violation to the caller before any sampling (the
generator state is exactly the freshly seeded one), the call is fatal
(`Except.error`), and no partial result is produced. -/
theorem precondition_mismatched_lengths_fatal (five : Estimator) (pe : PoseEngine)
    (seven eight : Estimator) (points2D1 points2D2 : List V2)
    (camera1 camera2 : Camera) (options : RANSACOptions)
    (max_error_px mir : ℚ) (mint maxt : ℕ) (conf : ℚ) (w : Prng)
    (h : points2D1.length ≠ points2D2.length) :
    essential_matrix_estimation five pe points2D1 points2D2 camera1 camera2 options w
        = (Except.error checkSizeMsg, setPRNGSeed 0 w) ∧
    essential_matrix_estimation_scalars five pe points2D1 points2D2 camera1 camera2
        max_error_px mir mint maxt conf w = (Except.error checkSizeMsg, setPRNGSeed 0 w) ∧
    fundamental_matrix_estimation seven eight points2D1 points2D2 options w
        = (Except.error checkSizeMsg, setPRNGSeed 0 w) ∧
    fundamental_matrix_estimation_scalars seven eight points2D1 points2D2
        max_error_px mir mint maxt conf w = (Except.error checkSizeMsg, setPRNGSeed 0 w) := by
  refine ⟨?_, ?_, ?_, ?_⟩ <;>
    simp [essential_matrix_estimation, essential_matrix_estimation_scalars,
      fundamental_matrix_estimation, fundamental_matrix_estimation_scalars, h]

/-- C1 witness: a concrete mismatched call (3 points against 1) is rejected
with the generator freshly seeded. -/
theorem precondition_mismatched_lengths_fatal_witness :
    cexPoints1.length ≠ failPoints.length ∧
    fundamental_matrix_estimation failSeven cexNonminimal cexPoints1 failPoints failOpts 5 =
      (Except.error checkSizeMsg, setPRNGSeed 0 5) :=
  ⟨by decide,
   (precondition_mismatched_lengths_fatal okFive okPose failSeven cexNonminimal
     cexPoints1 failPoints okCam okCam failOpts 1 1 1 1 1 5 (by decide)).2.2.1⟩

/-- C2 (amended): whenever the returned report has `success = true`, its
`inliers` mask is the engine report's mask, its length equals both input
lengths, and `num_inliers` equals the number of `true` entries of the mask.
(The original claim also asserted this for failing reports, but the failure
dictionary carries no mask at all — see the counterexample.) -/
theorem success_report_mask_invariant (five : Estimator) (pe : PoseEngine)
    (seven eight : Estimator) (p1 p2 : List V2) (c1 c2 : Camera)
    (opts : RANSACOptions) (w : Prng) (dE dF : PyDict) :
    ((essential_matrix_estimation five pe p1 p2 c1 c2 opts w).1 = Except.ok dE →
      List.lookup "success" dE = some (PyValue.pyBool true) →
      List.lookup "inliers" dE = some (PyValue.pyBoolList
        (essentialRansacReport five opts p1 p2 c1 c2 (setPRNGSeed 0 w)).1.inlierMask) ∧
      List.lookup "num_inliers" dE = some (PyValue.pyNat (countTrue
        (essentialRansacReport five opts p1 p2 c1 c2 (setPRNGSeed 0 w)).1.inlierMask)) ∧
      (essentialRansacReport five opts p1 p2 c1 c2 (setPRNGSeed 0 w)).1.inlierMask.length
        = p1.length ∧
      (essentialRansacReport five opts p1 p2 c1 c2 (setPRNGSeed 0 w)).1.inlierMask.length
        = p2.length) ∧
    ((fundamental_matrix_estimation seven eight p1 p2 opts w).1 = Except.ok dF →
      List.lookup "success" dF = some (PyValue.pyBool true) →
      List.lookup "inliers" dF = some (PyValue.pyBoolList
        (loransacEstimate seven eight opts p1 p2 (setPRNGSeed 0 w)).1.inlierMask) ∧
      List.lookup "num_inliers" dF = some (PyValue.pyNat (countTrue
        (loransacEstimate seven eight opts p1 p2 (setPRNGSeed 0 w)).1.inlierMask)) ∧
      (loransacEstimate seven eight opts p1 p2 (setPRNGSeed 0 w)).1.inlierMask.length
        = p1.length ∧
      (loransacEstimate seven eight opts p1 p2 (setPRNGSeed 0 w)).1.inlierMask.length
        = p2.length) := by
  constructor
  · intro hok hsucc
    unfold essential_matrix_estimation at hok
    split at hok
    case isFalse => exact absurd hok (by simp)
    case isTrue hlen =>
      simp only [] at hok
      split at hok
      case isFalse =>
        have hL := Except.ok.inj hok
        rw [← hL] at hsucc
        simp [failureDict, List.lookup] at hsucc
      case isTrue hs =>
        have hL := Except.ok.inj hok
        rw [← hL]
        have hinv := essentialRansacReport_success_inv five opts p1 p2 c1 c2 (setPRNGSeed 0 w) hs
        refine ⟨?_, ?_, ?_, ?_⟩
        · simp [List.lookup, boolConv_eq]
        · simp only [List.lookup]
          rw [hinv.2]
          rfl
        · rw [hinv.1]
          simp [List.length_zip, imageToWorld_length, hlen]
        · rw [hinv.1]
          simp [List.length_zip, imageToWorld_length, hlen]
  · intro hok hsucc
    unfold fundamental_matrix_estimation at hok
    split at hok
    case isFalse => exact absurd hok (by simp)
    case isTrue hlen =>
      simp only [] at hok
      split at hok
      case isFalse =>
        have hL := Except.ok.inj hok
        rw [← hL] at hsucc
        simp [failureDict, List.lookup] at hsucc
      case isTrue hs =>
        have hL := Except.ok.inj hok
        rw [← hL]
        have hinv := loransacEstimate_success_inv seven eight opts p1 p2 (setPRNGSeed 0 w) hs
        refine ⟨?_, ?_, ?_, ?_⟩
        · simp [List.lookup, boolConv_eq]
        · simp only [List.lookup]
          rw [hinv.2]
          rfl
        · rw [hinv.1]
          simp [List.length_zip, hlen]
        · rw [hinv.1]
          simp [List.length_zip, hlen]

/-- C2 counterexample: on a failing call (1 correspondence, minimal sample
size 7) the returned report is exactly the failure dictionary, which has no
`inliers` and no `num_inliers` entry at all, refuting the claim that
`inlierMask.length == points2D_1.length` holds whether or not `success` is
true. -/
theorem failure_report_lacks_mask_cex :
    (fundamental_matrix_estimation failSeven cexNonminimal failPoints failPoints failOpts 0).1
      = Except.ok failureDict ∧
    failPoints.length = 1 ∧
    List.lookup "inliers" failureDict = (none : Option PyValue) ∧
    List.lookup "num_inliers" failureDict = (none : Option PyValue) :=
  ⟨by with_unfolding_all rfl, rfl, rfl, rfl⟩

/-- C2 witness: a concrete successful fundamental call on three
correspondences yields a report whose mask has three entries — as many as
each input list — with `num_inliers` equal to its `true` count. -/
theorem success_report_mask_invariant_witness :
    List.lookup "inliers" [("success", PyValue.pyBool true), ("F", PyValue.pyMat cexMatB),
        ("num_inliers", PyValue.pyNat 3), ("inliers", PyValue.pyBoolList [true, true, true])]
      = some (PyValue.pyBoolList
        (loransacEstimate cexMinimal cexNonminimal cexOptsLow cexPoints1 cexPoints2
          (setPRNGSeed 0 0)).1.inlierMask) ∧
    List.lookup "num_inliers" [("success", PyValue.pyBool true), ("F", PyValue.pyMat cexMatB),
        ("num_inliers", PyValue.pyNat 3), ("inliers", PyValue.pyBoolList [true, true, true])]
      = some (PyValue.pyNat (countTrue
        (loransacEstimate cexMinimal cexNonminimal cexOptsLow cexPoints1 cexPoints2
          (setPRNGSeed 0 0)).1.inlierMask)) ∧
    (loransacEstimate cexMinimal cexNonminimal cexOptsLow cexPoints1 cexPoints2
      (setPRNGSeed 0 0)).1.inlierMask.length = cexPoints1.length ∧
    (loransacEstimate cexMinimal cexNonminimal cexOptsLow cexPoints1 cexPoints2
      (setPRNGSeed 0 0)).1.inlierMask.length = cexPoints2.length :=
  (success_report_mask_invariant okFive okPose cexMinimal cexNonminimal cexPoints1 cexPoints2
    okCam okCam cexOptsLow 0 failureDict
    [("success", PyValue.pyBool true), ("F", PyValue.pyMat cexMatB),
     ("num_inliers", PyValue.pyNat 3), ("inliers", PyValue.pyBoolList [true, true, true])]).2
    (by with_unfolding_all rfl) rfl

/-- C3: when a call returns a report whose `success` entry is false, the
report is exactly the failure dictionary: no model and no other field is
present, for both operations. -/
theorem failure_report_only_success_flag (five : Estimator) (pe : PoseEngine)
    (seven eight : Estimator) (p1 p2 : List V2) (c1 c2 : Camera)
    (opts : RANSACOptions) (w : Prng) (dE dF : PyDict) :
    ((essential_matrix_estimation five pe p1 p2 c1 c2 opts w).1 = Except.ok dE →
      List.lookup "success" dE = some (PyValue.pyBool false) → dE = failureDict) ∧
    ((fundamental_matrix_estimation seven eight p1 p2 opts w).1 = Except.ok dF →
      List.lookup "success" dF = some (PyValue.pyBool false) → dF = failureDict) := by
  constructor
  · intro hok hsucc
    unfold essential_matrix_estimation at hok
    split at hok
    · simp only [] at hok
      split at hok
      · have hL := Except.ok.inj hok
        rw [← hL] at hsucc
        simp [List.lookup] at hsucc
      · exact (Except.ok.inj hok).symm
    · exact absurd hok (by simp)
  · intro hok hsucc
    unfold fundamental_matrix_estimation at hok
    split at hok
    · simp only [] at hok
      split at hok
      · have hL := Except.ok.inj hok
        rw [← hL] at hsucc
        simp [List.lookup] at hsucc
      · exact (Except.ok.inj hok).symm
    · exact absurd hok (by simp)

/-- C3 witness: a concrete failing call returns exactly the one-entry
failure dictionary. -/
theorem failure_report_only_success_flag_witness :
    (fundamental_matrix_estimation failSeven cexNonminimal failPoints failPoints failOpts 0).1
      = Except.ok [("success", PyValue.pyBool false)] ∧
    ([("success", PyValue.pyBool false)] : PyDict) = failureDict :=
  ⟨by with_unfolding_all rfl,
   (failure_report_only_success_flag okFive okPose failSeven cexNonminimal failPoints failPoints
     okCam okCam failOpts 0 failureDict [("success", PyValue.pyBool false)]).2
     (by with_unfolding_all rfl) rfl⟩

/-- C4: on the essential path, the report the wrapper consumes is the
engine run on both pixel lists mapped through their cameras' image-to-ray
maps, with the threshold converted to normalized space as
`0.5 * (maxErrorPixels / meanFocalLength1 + maxErrorPixels / meanFocalLength2)`
and all other options unchanged. -/
theorem essential_normalization_and_threshold (five : Estimator) (opts : RANSACOptions)
    (p1 p2 : List V2) (c1 c2 : Camera) (s : Prng) :
    essentialRansacReport five opts p1 p2 c1 c2 s =
      loransacEstimate five five
        ⟨1 / 2 * (opts.max_error / c1.meanFocalLength + opts.max_error / c2.meanFocalLength),
         opts.min_inlier_ratio, opts.min_num_trials, opts.max_num_trials, opts.confidence⟩
        (p1.map c1.camFromImg) (p2.map c2.camFromImg) s := by
  simp [essentialRansacReport, imageToWorld_eq_map, worldError]

/-- C5: both operations overwrite the process-wide generator with the fixed
seed 0 before sampling, so the returned report does not depend on the
incoming generator state: two calls with identical inputs and options —
in particular, repeated calls — produce bit-identical reports. -/
theorem reports_independent_of_prng_state (five : Estimator) (pe : PoseEngine)
    (seven eight : Estimator) (p1 p2 : List V2) (c1 c2 : Camera)
    (opts : RANSACOptions) (w w' : Prng) :
    (essential_matrix_estimation five pe p1 p2 c1 c2 opts w).1 =
      (essential_matrix_estimation five pe p1 p2 c1 c2 opts w').1 ∧
    (fundamental_matrix_estimation seven eight p1 p2 opts w).1 =
      (fundamental_matrix_estimation seven eight p1 p2 opts w').1 :=
  ⟨rfl, rfl⟩

/-- C6: on the essential path, whenever the engine report succeeds the call
returns the success dictionary: `success = true`, the essential matrix, a
relative pose whose rotation and translation come from pose recovery run on
exactly the mask-selected correspondences in normalized camera-ray space,
the inlier count, and the inlier mask. -/
theorem essential_success_report_shape (five : Estimator) (pe : PoseEngine)
    (p1 p2 : List V2) (c1 c2 : Camera) (opts : RANSACOptions) (w : Prng)
    (hlen : p1.length = p2.length)
    (hs : (essentialRansacReport five opts p1 p2 c1 c2 (setPRNGSeed 0 w)).1.success = true) :
    essential_matrix_estimation five pe p1 p2 c1 c2 opts w =
      (Except.ok
        [("success", PyValue.pyBool true),
         ("E", PyValue.pyMat (essentialRansacReport five opts p1 p2 c1 c2 (setPRNGSeed 0 w)).1.model),
         ("cam2_from_cam1", PyValue.pyPose
           ⟨pe.quatOfRot
              (poseFromEssentialMatrix pe
                (essentialRansacReport five opts p1 p2 c1 c2 (setPRNGSeed 0 w)).1.model
                (maskFilter (essentialRansacReport five opts p1 p2 c1 c2 (setPRNGSeed 0 w)).1.inlierMask
                  (p1.map c1.camFromImg))
                (maskFilter (essentialRansacReport five opts p1 p2 c1 c2 (setPRNGSeed 0 w)).1.inlierMask
                  (p2.map c2.camFromImg))).1,
            (poseFromEssentialMatrix pe
                (essentialRansacReport five opts p1 p2 c1 c2 (setPRNGSeed 0 w)).1.model
                (maskFilter (essentialRansacReport five opts p1 p2 c1 c2 (setPRNGSeed 0 w)).1.inlierMask
                  (p1.map c1.camFromImg))
                (maskFilter (essentialRansacReport five opts p1 p2 c1 c2 (setPRNGSeed 0 w)).1.inlierMask
                  (p2.map c2.camFromImg))).2.1⟩),
         ("num_inliers", PyValue.pyNat
           (essentialRansacReport five opts p1 p2 c1 c2 (setPRNGSeed 0 w)).1.numInliers),
         ("inliers", PyValue.pyBoolList
           (essentialRansacReport five opts p1 p2 c1 c2 (setPRNGSeed 0 w)).1.inlierMask)],
       (essentialRansacReport five opts p1 p2 c1 c2 (setPRNGSeed 0 w)).2) := by
  unfold essential_matrix_estimation
  rw [if_pos hlen]
  simp only [hs, if_true, boolConv_eq, imageToWorld_eq_map]

/-- C6 witness: a concrete successful essential call returns the full
success dictionary. -/
theorem essential_success_report_shape_witness :
    essential_matrix_estimation okFive okPose okPoints okPoints okCam okCam okOpts 0 =
      (Except.ok
        [("success", PyValue.pyBool true),
         ("E", PyValue.pyMat cexMatA),
         ("cam2_from_cam1", PyValue.pyPose ⟨⟨1, 0, 0, 0⟩, (1, 0, 0)⟩),
         ("num_inliers", PyValue.pyNat 1),
         ("inliers", PyValue.pyBoolList [true])], 1) := by
  rw [essential_success_report_shape okFive okPose okPoints okPoints okCam okCam okOpts 0
    rfl (by with_unfolding_all rfl)]
  with_unfolding_all rfl

/-- C7: on the essential path, whenever the engine report succeeds, the
pose recovery the wrapper runs over the mask-selected normalized
correspondences produces one triangulated 3D point per inlier
(`numInliers` points).  The success dictionary itself keeps only the
rotation and translation of this pose result. -/
theorem essential_pose_points_one_per_inlier (five : Estimator) (pe : PoseEngine)
    (p1 p2 : List V2) (c1 c2 : Camera) (opts : RANSACOptions) (w : Prng)
    (hlen : p1.length = p2.length)
    (hs : (essentialRansacReport five opts p1 p2 c1 c2 (setPRNGSeed 0 w)).1.success = true) :
    (poseFromEssentialMatrix pe
      (essentialRansacReport five opts p1 p2 c1 c2 (setPRNGSeed 0 w)).1.model
      (maskFilter (essentialRansacReport five opts p1 p2 c1 c2 (setPRNGSeed 0 w)).1.inlierMask
        (imageToWorld c1 p1))
      (maskFilter (essentialRansacReport five opts p1 p2 c1 c2 (setPRNGSeed 0 w)).1.inlierMask
        (imageToWorld c2 p2))).2.2.length =
      (essentialRansacReport five opts p1 p2 c1 c2 (setPRNGSeed 0 w)).1.numInliers := by
  have hinv := essentialRansacReport_success_inv five opts p1 p2 c1 c2 (setPRNGSeed 0 w) hs
  have hmask : (essentialRansacReport five opts p1 p2 c1 c2 (setPRNGSeed 0 w)).1.inlierMask.length
      = (imageToWorld c1 p1).length := by
    rw [hinv.1]
    simp [List.length_zip, imageToWorld_length, hlen]
  have hmask2 : (essentialRansacReport five opts p1 p2 c1 c2 (setPRNGSeed 0 w)).1.inlierMask.length
      = (imageToWorld c2 p2).length := by
    rw [hinv.1]
    simp [List.length_zip, imageToWorld_length, hlen]
  rw [poseFromEssentialMatrix_pts_length, List.length_zip,
    maskFilter_length _ _ hmask, maskFilter_length _ _ hmask2, hinv.2, Nat.min_self]

/-- C7 witness: at a concrete successful call, pose recovery triangulates
exactly `numInliers` points. -/
theorem essential_pose_points_one_per_inlier_witness :
    (essentialRansacReport okFive okOpts okPoints okPoints okCam okCam (setPRNGSeed 0 0)).1.success
      = true ∧
    (poseFromEssentialMatrix okPose
      (essentialRansacReport okFive okOpts okPoints okPoints okCam okCam (setPRNGSeed 0 0)).1.model
      (maskFilter
        (essentialRansacReport okFive okOpts okPoints okPoints okCam okCam (setPRNGSeed 0 0)).1.inlierMask
        (imageToWorld okCam okPoints))
      (maskFilter
        (essentialRansacReport okFive okOpts okPoints okPoints okCam okCam (setPRNGSeed 0 0)).1.inlierMask
        (imageToWorld okCam okPoints))).2.2.length =
      (essentialRansacReport okFive okOpts okPoints okPoints okCam okCam (setPRNGSeed 0 0)).1.numInliers :=
  ⟨by with_unfolding_all rfl,
   essential_pose_points_one_per_inlier okFive okPose okPoints okPoints okCam okCam okOpts 0
     rfl (by with_unfolding_all rfl)⟩

/-- C8 counterexample: with the correspondences, all other options and the
seed held fixed, raising `max_error` from 1/2 to 5/4 makes the returned
`num_inliers` drop from 3 to 2: the higher threshold raises the first
trial's inlier ratio, the adaptive budget shrinks to one trial, and the
better second-trial model is never sampled. -/
theorem num_inliers_not_monotone_cex :
    cexOptsLow.max_error < cexOptsHigh.max_error ∧
    cexOptsLow.min_inlier_ratio = cexOptsHigh.min_inlier_ratio ∧
    cexOptsLow.min_num_trials = cexOptsHigh.min_num_trials ∧
    cexOptsLow.max_num_trials = cexOptsHigh.max_num_trials ∧
    cexOptsLow.confidence = cexOptsHigh.confidence ∧
    Option.bind (fundamental_matrix_estimation cexMinimal cexNonminimal cexPoints1 cexPoints2
      cexOptsLow 0).1.toOption (List.lookup "num_inliers") = some (PyValue.pyNat 3) ∧
    Option.bind (fundamental_matrix_estimation cexMinimal cexNonminimal cexPoints1 cexPoints2
      cexOptsHigh 0).1.toOption (List.lookup "num_inliers") = some (PyValue.pyNat 2) :=
  ⟨by with_unfolding_all decide, rfl, rfl, rfl, rfl,
   by with_unfolding_all rfl, by with_unfolding_all rfl⟩

/-- C8 (amended): for any fixed candidate model, increasing `max_error`
never decreases the number of correspondences the scorer classifies as
inliers; the end-to-end `numInliers` of the returned report is only
approximately monotone, since the changed threshold alters the adaptive
trial budget and search path (see the counterexample). -/
theorem max_error_monotone_per_model (e : Estimator) (m : Mat3) (corrs : List Corr)
    (t t' : ℚ) (h0 : 0 ≤ t) (h : t ≤ t') :
    countTrue (inlierMaskOf e t m corrs) ≤ countTrue (inlierMaskOf e t' m corrs) :=
  inlierCount_mono e m corrs h0 h

/-- C8 witness: at the counterexample's thresholds, the per-model inlier
count of the fixed model `cexMatA` indeed does not decrease (1 against 2). -/
theorem max_error_monotone_per_model_witness :
    (0 : ℚ) ≤ 1/2 ∧ (1/2 : ℚ) ≤ 5/4 ∧
    countTrue (inlierMaskOf cexMinimal (1/2) cexMatA (cexPoints1.zip cexPoints2)) ≤
      countTrue (inlierMaskOf cexMinimal (5/4) cexMatA (cexPoints1.zip cexPoints2)) :=
  ⟨by norm_num, by norm_num,
   max_error_monotone_per_model cexMinimal cexMatA (cexPoints1.zip cexPoints2)
     (1/2) (5/4) (by norm_num) (by norm_num)⟩

/-- C9: for each operation, the scalar-parameter overload returns exactly
the report of the options-struct overload called with the options record
assembled from the five scalars. -/
theorem scalar_overload_matches_struct_overload (five : Estimator) (pe : PoseEngine)
    (seven eight : Estimator) (p1 p2 : List V2) (c1 c2 : Camera)
    (e mir : ℚ) (mint maxt : ℕ) (conf : ℚ) (w : Prng) :
    essential_matrix_estimation_scalars five pe p1 p2 c1 c2 e mir mint maxt conf w =
      essential_matrix_estimation five pe p1 p2 c1 c2 ⟨e, mir, mint, maxt, conf⟩ w ∧
    fundamental_matrix_estimation_scalars seven eight p1 p2 e mir mint maxt conf w =
      fundamental_matrix_estimation seven eight p1 p2 ⟨e, mir, mint, maxt, conf⟩ w :=
  ⟨rfl, rfl⟩

/-- C10: both operations overwrite the process-wide generator state as
their very first action, before the length precondition check: the final
generator state never depends on the incoming one, and a call rejected for
mismatched lengths still leaves the generator at the fresh seed 0.  In this
embedding the generator is the only state a call touches besides producing
its returned report. -/
theorem seed_set_before_length_check (five : Estimator) (pe : PoseEngine)
    (seven eight : Estimator) (p1 p2 : List V2) (c1 c2 : Camera)
    (opts : RANSACOptions) (w w' : Prng) :
    (essential_matrix_estimation five pe p1 p2 c1 c2 opts w).2 =
      (essential_matrix_estimation five pe p1 p2 c1 c2 opts w').2 ∧
    (fundamental_matrix_estimation seven eight p1 p2 opts w).2 =
      (fundamental_matrix_estimation seven eight p1 p2 opts w').2 ∧
    (p1.length ≠ p2.length →
      (essential_matrix_estimation five pe p1 p2 c1 c2 opts w).1 = Except.error checkSizeMsg ∧
      (essential_matrix_estimation five pe p1 p2 c1 c2 opts w).2 = setPRNGSeed 0 w ∧
      (fundamental_matrix_estimation seven eight p1 p2 opts w).1 = Except.error checkSizeMsg ∧
      (fundamental_matrix_estimation seven eight p1 p2 opts w).2 = setPRNGSeed 0 w) := by
  refine ⟨rfl, rfl, fun h => ⟨?_, ?_, ?_, ?_⟩⟩ <;>
    simp [essential_matrix_estimation, fundamental_matrix_estimation, h]

/-- C10 witness: a rejected call entered with generator state 5 leaves the
generator at 0 — the seed mutation happened although the call failed its
precondition. -/
theorem seed_set_before_length_check_witness :
    (fundamental_matrix_estimation failSeven cexNonminimal cexPoints1 failPoints failOpts 5).2
      = 0 ∧ (5 : Prng) ≠ 0 := by
  have h := (seed_set_before_length_check okFive okPose failSeven cexNonminimal cexPoints1
    failPoints okCam okCam failOpts 5 7).2.2 (by decide)
  exact ⟨h.2.2.2, by decide⟩

end PyColmap
